import Mathlib

/-!
Verification of the backend-casa order-management core against its
natural-language specification.

This file shallowly embeds the Python source under `app/` (risk service,
FIX-gateway worker, order API, reconciliation service) into Lean:
Python floats become `ℚ` (decimal literals are read exactly), `None`-able
values become `Option`, Python exceptions become explicit error values,
and the database session becomes an explicit `Store` of orders and
executions threaded through each operation.  Timestamps and generated
UUIDs are not modelled (no verified property mentions them).
-/

namespace BackendCasa

/-- `app/utils/enums.py` — Side. -/
inductive Side
  | BUY
  | SELL
deriving DecidableEq, Repr

/-- `app/utils/enums.py` — OrderType. -/
inductive OrderType
  | MARKET
  | LIMIT
deriving DecidableEq, Repr

/-- `app/utils/enums.py` — TimeInForce. -/
inductive TimeInForce
  | GTC
  | DAY
  | IOC
  | FOK
deriving DecidableEq, Repr

/-- `app/utils/enums.py` — OrderStatus.  The enumeration has exactly these
seven members; in particular there is no `CANCEL_REQUESTED` member. -/
inductive OrderStatus
  | NEW
  | PENDING_SEND
  | SENT
  | PARTIALLY_FILLED
  | FILLED
  | REJECTED
  | CANCELED
deriving DecidableEq, Repr

/-- Python enum member lookup on `OrderStatus` by attribute name
(`app/utils/enums.py` lines 17-24): `none` for a name that is not a member. -/
def orderStatusMember? (name : String) : Option OrderStatus :=
  match name with
  | "NEW" => some .NEW
  | "PENDING_SEND" => some .PENDING_SEND
  | "SENT" => some .SENT
  | "PARTIALLY_FILLED" => some .PARTIALLY_FILLED
  | "FILLED" => some .FILLED
  | "REJECTED" => some .REJECTED
  | "CANCELED" => some .CANCELED
  | _ => none

/-- A Python exception surfaced by the worker code. -/
inductive PyError
  | attributeError (name : String)
deriving DecidableEq, Repr

/-- Models the Python expression `OrderStatus.<name>.value`: an
`AttributeError` is raised when the enumeration has no such member. -/
def enumAttr (name : String) : Except PyError OrderStatus :=
  match orderStatusMember? name with
  | some s => .ok s
  | none => .error (.attributeError name)

/-- `app/models.py` — Order row.  `created_at` / `updated_at` are omitted
(no claim mentions them). -/
structure Order where
  id : String
  client_id : String
  symbol : String
  side : Side
  type : OrderType
  qty : ℚ
  price : Option ℚ
  time_in_force : TimeInForce
  status : OrderStatus
  cum_qty : ℚ
  avg_px : Option ℚ
  reject_reason : Option String
deriving DecidableEq, Repr

/-- `app/models.py` — Execution row (`id` uuid and `exec_time` omitted;
no claim mentions them). -/
structure Execution where
  order_id : String
  exec_qty : ℚ
  exec_px : ℚ
deriving DecidableEq, Repr

/-- `app/models.py` — RiskLimit row (`id` omitted). -/
structure RiskLimit where
  client_id : String
  symbol : Option String
  max_notional : ℚ
  max_order_size : ℚ
  trading_hours : String
  blocked : Bool
deriving DecidableEq, Repr

/-- The database contents relevant to the verified operations: the
`orders` and `executions` tables, in insertion order. -/
structure Store where
  orders : List Order
  executions : List Execution
deriving DecidableEq, Repr

/-- `db.get(OrderModel, order_id)`. -/
def getOrder (st : Store) (oid : String) : Option Order :=
  st.orders.find? (fun o => o.id = oid)

/-- Committing a mutation of an existing order row: the row with the same
primary key is replaced. -/
def saveOrder (st : Store) (o : Order) : Store :=
  { st with orders := st.orders.map (fun x => if x.id = o.id then o else x) }

/-- `repo.create(...)` + commit: a fresh row is appended. -/
def addOrder (st : Store) (o : Order) : Store :=
  { st with orders := st.orders ++ [o] }

/-- `db.add(Execution(...))` + commit: executions are append-only. -/
def addExecution (st : Store) (e : Execution) : Store :=
  { st with executions := st.executions ++ [e] }

/-- Event type published on the bus (`app/services/fix_gateway.py`). -/
inductive EventType
  | ORDER_UPDATE
  | ORDER_REJECT
deriving DecidableEq, Repr

/-- One published event: its topic, kind, the order snapshot carried in the
payload and, for rejects, the reject code. -/
structure Event where
  topic : String
  etype : EventType
  snapshot : Order
  code : Option String
deriving DecidableEq, Repr

/-- A command on the FIX gateway queue (`app/services/events.py`). -/
inductive Command
  | send (order_id : String)
  | cancel (order_id : String)
deriving DecidableEq, Repr

/-! ### Python value helpers

Python's `x or d` returns `d` whenever `x` is falsy (`None`, `0.0`, `""`). -/

/-- `x or d` for a float `x`. -/
def pyOrQ (x : ℚ) (d : ℚ) : ℚ :=
  if x = 0 then d else x

/-- `x or d` for an optional float `x` (both `None` and `0.0` are falsy). -/
def pyOrOptQ (x : Option ℚ) (d : ℚ) : ℚ :=
  match x with
  | none => d
  | some v => if v = 0 then d else v

/-- `x or d` for an optional string `x` (both `None` and `""` are falsy). -/
def pyOrOptStr (x : Option String) (d : String) : String :=
  match x with
  | none => d
  | some s => if s = "" then d else s

/-- Python `abs` on a float. -/
def pyAbs (x : ℚ) : ℚ :=
  if x < 0 then -x else x

/-- `symbol.upper().startswith(pre)` (ASCII symbols). -/
def upperStartsWith (s pre : String) : Bool :=
  List.isPrefixOf pre.toList (s.toList.map Char.toUpper)

/-! ### Times of day

`datetime.time` values compare lexicographically on
(hour, minute, second, microsecond); `Tod.key` is an order-preserving
encoding of that tuple for in-range field values. -/

/-- A time of day as carried by `datetime.time`. -/
structure Tod where
  hour : Nat
  minute : Nat
  second : Nat
  micro : Nat
deriving DecidableEq, Repr

/-- Order-preserving encoding of a time of day. -/
def Tod.key (t : Tod) : Nat :=
  ((t.hour * 60 + t.minute) * 60 + t.second) * 1000000 + t.micro

/-- `a <= b` on times of day. -/
def Tod.ble (a b : Tod) : Bool :=
  a.key ≤ b.key

/-- `time_cls(h, m)`: `none` models the `ValueError` raised on an
out-of-range hour or minute. -/
def mkTime? (h m : Int) : Option Tod :=
  if 0 ≤ h ∧ h ≤ 23 ∧ 0 ≤ m ∧ m ≤ 59 then
    some ⟨h.toNat, m.toNat, 0, 0⟩
  else
    none

/-- Digits-only natural-number parse; `none` unless the list is nonempty
and all ASCII digits. -/
def parseDigits? (l : List Char) : Option Nat :=
  if l ≠ [] ∧ l.all Char.isDigit then
    some (l.foldl (fun n c => n * 10 + (c.toNat - 48)) 0)
  else
    none

/-- Strip surrounding whitespace. -/
def pyStrip (l : List Char) : List Char :=
  ((l.dropWhile Char.isWhitespace).reverse.dropWhile Char.isWhitespace).reverse

/-- Python `int(x)` on the substrings occurring here: optional surrounding
whitespace, optional sign, ASCII digits.  (Python additionally accepts
underscore separators and non-ASCII digits, which cannot occur in the
repository's trading-hours data.) -/
def pyInt? (l : List Char) : Option Int :=
  match pyStrip l with
  | '-' :: rest => (parseDigits? rest).map (fun n => -(n : Int))
  | '+' :: rest => (parseDigits? rest).map (fun n => (n : Int))
  | t => (parseDigits? t).map (fun n => (n : Int))

/-- Python `str.split(sep)` for a one-character separator: every occurrence
splits, empty pieces are kept. -/
def splitOnSepAux (sep : Char) : List Char → List Char → List (List Char)
  | [], acc => [acc.reverse]
  | c :: rest, acc =>
    if c = sep then acc.reverse :: splitOnSepAux sep rest []
    else splitOnSepAux sep rest (c :: acc)

/-- `s.split(sep)` on a char list. -/
def splitOnSep (sep : Char) (l : List Char) : List (List Char) :=
  splitOnSepAux sep l []

/-- The `try` body of `_parse_trading_hours`
(`app/services/risk_service.py` lines 11-15): split on `-`, each half split
on `:` into exactly two `int(...)` fields, then `time(sh, sm)`, `time(eh, em)`.
`none` models any exception reaching the `except` clause. -/
def parseHoursParts? (th : String) : Option (Tod × Tod) :=
  match splitOnSep '-' th.toList with
  | [start_s, end_s] =>
    match splitOnSep ':' start_s, splitOnSep ':' end_s with
    | [shs, sms], [ehs, ems] => do
      let sh ← pyInt? shs
      let sm ← pyInt? sms
      let eh ← pyInt? ehs
      let em ← pyInt? ems
      let start_t ← mkTime? sh sm
      let end_t ← mkTime? eh em
      pure (start_t, end_t)
    | _, _ => none
  | _ => none

/-- `_parse_trading_hours` (`app/services/risk_service.py` lines 7-18):
on any parse failure the window `(23:59, 00:00)` is substituted ("forzar
rechazo por seguridad"). -/
def _parse_trading_hours (th : String) : Tod × Tod :=
  (parseHoursParts? th).getD (⟨23, 59, 0, 0⟩, ⟨0, 0, 0, 0⟩)

/-- The duck-typed view of an order request that `validate_order` reads
(`qty`, `type`, `price` attributes). -/
structure RiskRequest where
  qty : ℚ
  type : OrderType
  price : Option ℚ
deriving DecidableEq, Repr

/-- The price-resolution step of `validate_order` (lines 63-68): the
request's own price when present, else the symbol's reference price (`none`
models `float(ref_px)` raising, i.e. `MISSING_REFERENCE_PRICE`). -/
def effectivePrice (req : RiskRequest) (ref_price : Option ℚ) : Option ℚ :=
  match req.price with
  | some p => some p
  | none => ref_price

/-- `validate_order` (`app/services/risk_service.py` lines 21-79).
`ref_price` is the `symbol_spec["ref_price"]` entry (`none` both when the
key is absent and when it is `None`, either way `float(ref_px)` raises);
`now` is `datetime.now().time()`. -/
def validate_order (req : RiskRequest) (client_risk : RiskLimit)
    (ref_price : Option ℚ) (now : Tod) : Bool × Option String :=
  if req.qty ≤ 0 then
    (false, some "INVALID_QTY")
  else if req.type = OrderType.LIMIT ∧ req.price = none then
    (false, some "PRICE_REQUIRED")
  else if req.type = OrderType.MARKET ∧ req.price ≠ none then
    (false, some "PRICE_NOT_ALLOWED")
  else if client_risk.blocked then
    (false, some "SYMBOL_BLOCKED")
  else
    let window := _parse_trading_hours client_risk.trading_hours
    if ¬(window.1.ble now ∧ now.ble window.2) then
      (false, some "OUTSIDE_TRADING_HOURS")
    else
      match effectivePrice req ref_price with
      | none => (false, some "MISSING_REFERENCE_PRICE")
      | some price =>
        if req.qty * price > client_risk.max_notional then
          (false, some "NOTIONAL_LIMIT_EXCEEDED")
        else if req.qty > client_risk.max_order_size then
          (false, some "ORDER_SIZE_LIMIT_EXCEEDED")
        else
          (true, none)

/-! ### FIX gateway (`app/services/fix_gateway.py`) -/

/-- `event_bus.publish(f"orders.{order.client_id}", {"type": "ORDER_UPDATE", ...})`
(`_publish_update`, lines 220-228). -/
def publish_update (o : Order) : Event :=
  { topic := "orders." ++ o.client_id
    etype := .ORDER_UPDATE
    snapshot := o
    code := none }

/-- `_publish_reject` (lines 230-242). -/
def publish_reject (o : Order) (code : String) : Event :=
  { topic := "orders." ++ o.client_id
    etype := .ORDER_REJECT
    snapshot := o
    code := some code }

/-- Python `round(x, 2)` on the mock price.  (Python rounds an exact
half-cent tie to even; `round` here rounds it up.  The simulated price is a
uniform draw, and no verified property touches the tie case.) -/
def round2 (x : ℚ) : ℚ :=
  (round (x * 100) : ℤ) / 100

/-- `_mock_market_px` (lines 216-218); `u` is the `random.uniform(-1, 1)` draw. -/
def _mock_market_px (symbol : String) (u : ℚ) : ℚ :=
  round2 ((if upperStartsWith symbol "XAU" then (2000.0 : ℚ) else 1.1000) + u)

/-- The random draws consumed by one `_process_send` run. -/
structure SendDraws where
  /-- `random.random() < 0.1` — the reject draw (line 135). -/
  reject : Bool
  /-- `random.random() < 0.5` — the split-fill draw, named `partial` in the
  source (line 147). -/
  splitFill : Bool
  /-- the `random.uniform(-1, 1)` draw inside `_mock_market_px`. -/
  uniform : ℚ
deriving DecidableEq, Repr

/-- The status test
`order.status in (OrderStatus.CANCELED.value, OrderStatus.CANCEL_REQUESTED.value)`
used at lines 98, 113, 130 and 175: Python builds the tuple left to right, so
`OrderStatus.CANCELED.value` is read first and the lookup of the missing
member `CANCEL_REQUESTED` then raises `AttributeError`. -/
def canceledOrCancelRequested (s : OrderStatus) : Except PyError Bool := do
  let a ← enumAttr "CANCELED"
  let b ← enumAttr "CANCEL_REQUESTED"
  pure (s == a || s == b)

/-- The first-fill block of `_process_send` (lines 152-165): append one
Execution for the lot, advance `cum_qty`, recompute the volume-weighted
`avg_px`, and set the status from the new `cum_qty`.  Returns the updated
store together with the updated order row. -/
def fillStep (st : Store) (order : Order) (lot px : ℚ) : Store × Order :=
  let ex : Execution := { order_id := order.id, exec_qty := lot, exec_px := px }
  let prev_cum := pyOrQ order.cum_qty 0
  let new_cum := prev_cum + lot
  let denom := prev_cum + lot
  let new_avg : ℚ :=
    if denom = 0 then 0 else (pyOrOptQ order.avg_px 0 * prev_cum + px * lot) / denom
  let order' :=
    { order with
      cum_qty := new_cum
      avg_px := some new_avg
      status := if new_cum < order.qty then OrderStatus.PARTIALLY_FILLED else OrderStatus.FILLED }
  (saveOrder (addExecution st ex) order', order')

/-- The second-fill block of `_process_send` (lines 179-189): the remainder
`qty - cum_qty` is emitted as one Execution at the same price and the status
is set to `FILLED` outright. -/
def finalFillStep (st : Store) (order : Order) (px : ℚ) : Store × Order :=
  let lot2 := order.qty - order.cum_qty
  let ex : Execution := { order_id := order.id, exec_qty := lot2, exec_px := px }
  let prev_cum := pyOrQ order.cum_qty 0
  let new_cum := prev_cum + lot2
  let denom := prev_cum + lot2
  let new_avg : ℚ :=
    if denom = 0 then 0 else (pyOrOptQ order.avg_px 0 * prev_cum + px * lot2) / denom
  let order' :=
    { order with
      cum_qty := new_cum
      avg_px := some new_avg
      status := OrderStatus.FILLED }
  (saveOrder (addExecution st ex) order', order')

/-- `lot1 = remaining * (0.4 if partial else 1.0)` (line 148). -/
def firstLot (remaining : ℚ) (splitFill : Bool) : ℚ :=
  remaining * (if splitFill then 0.4 else 1.0)

/-- `FixGateway._process_send` (lines 90-191).  The result is the raised
exception (if any), the store as of the commits performed before the raise
or return, and the events published in order.  `db.refresh(order)` re-reads
the row just committed by this same serialized worker, i.e. yields the saved
row again. -/
def _process_send (d : SendDraws) (st : Store) (order_id : String) :
    Option PyError × Store × List Event :=
  match getOrder st order_id with
  | none => (none, st, [])
  | some order =>
    match canceledOrCancelRequested order.status with
    | .error e => (some e, st, [])
    | .ok true => (none, st, [])
    | .ok false =>
      let order1 := { order with status := OrderStatus.PENDING_SEND }
      let st1 := saveOrder st order1
      let evs1 := [publish_update order1]
      let order2 := (getOrder st1 order_id).getD order1
      match canceledOrCancelRequested order2.status with
      | .error e => (some e, st1, evs1)
      | .ok true => (none, st1, evs1)
      | .ok false =>
        let order3 := { order2 with status := OrderStatus.SENT }
        let st2 := saveOrder st1 order3
        let evs2 := evs1 ++ [publish_update order3]
        let remaining := order3.qty - order3.cum_qty
        if remaining ≤ 0 then (none, st2, evs2)
        else
          let order4 := (getOrder st2 order_id).getD order3
          match canceledOrCancelRequested order4.status with
          | .error e => (some e, st2, evs2)
          | .ok true => (none, st2, evs2)
          | .ok false =>
            if d.reject then
              let order5 :=
                { order4 with
                  status := OrderStatus.REJECTED
                  reject_reason := some (pyOrOptStr order4.reject_reason "FIX_REJECT") }
              let st3 := saveOrder st2 order5
              (none, st3,
                evs2 ++ [publish_update order5,
                  publish_reject order5 (pyOrOptStr order5.reject_reason "FIX_REJECT")])
            else
              let lot1 := firstLot remaining d.splitFill
              let px := pyOrOptQ order4.price (_mock_market_px order4.symbol d.uniform)
              let (st3, order5) := fillStep st2 order4 lot1 px
              let evs3 := evs2 ++ [publish_update order5]
              if order5.cum_qty < order5.qty then
                let order6 := (getOrder st3 order_id).getD order5
                match canceledOrCancelRequested order6.status with
                | .error e => (some e, st3, evs3)
                | .ok true => (none, st3, evs3)
                | .ok false =>
                  let (st4, order7) := finalFillStep st3 order6 px
                  (none, st4, evs3 ++ [publish_update order7])
              else (none, st3, evs3)

/-- `FixGateway._process_cancel` (lines 193-214). -/
def _process_cancel (st : Store) (order_id : String) : Store × List Event :=
  match getOrder st order_id with
  | none => (st, [])
  | some order =>
    if order.status = OrderStatus.FILLED ∨ order.status = OrderStatus.CANCELED
        ∨ order.status = OrderStatus.REJECTED then
      (st, [])
    else
      let order' := { order with status := OrderStatus.CANCELED }
      (saveOrder st order', [publish_update order'])

/-! ### Order API (`app/api.py`) -/

/-- `app/schemas.py` — OrderCreateRequest fields. -/
structure OrderCreateRequest where
  clientId : Option String
  symbol : String
  side : Side
  type : OrderType
  qty : ℚ
  price : Option ℚ
  timeInForce : TimeInForce
deriving DecidableEq, Repr

/-- The pydantic validation of `OrderCreateRequest` (`app/schemas.py`
lines 11-24): `qty` has `Field(gt=0)` and the `price` validator requires a
price on LIMIT and forbids one on MARKET.  A request only reaches
`create_order` if this holds. -/
def OrderCreateRequest.pydanticValid (p : OrderCreateRequest) : Prop :=
  0 < p.qty ∧ (p.type = OrderType.LIMIT → p.price ≠ none)
    ∧ (p.type = OrderType.MARKET → p.price = none)

instance (p : OrderCreateRequest) : Decidable p.pydanticValid := by
  unfold OrderCreateRequest.pydanticValid
  infer_instance

/-- `app/schemas.py` — OrderAmendRequest. -/
structure OrderAmendRequest where
  price : Option ℚ
  qty : Option ℚ
deriving DecidableEq, Repr

/-- The permissive `SimpleNamespace` default limits substituted when no
RiskLimit row exists for the client (`app/api.py` lines 46-55 and 174-182). -/
def defaultRiskLimit (cid : String) : RiskLimit :=
  { client_id := cid
    symbol := none
    max_notional := 1e12
    max_order_size := 1e9
    trading_hours := "00:00-23:59"
    blocked := false }

/-- Resolution of the client's limits: the repository lookup result if any,
else the permissive default. -/
def limitOrDefault (lim : Option RiskLimit) (cid : String) : RiskLimit :=
  lim.getD (defaultRiskLimit cid)

/-- `symbol_spec = {"ref_price": 2000.0 if symbol.upper().startswith("XAU") else 1.10}`
(`app/api.py` lines 57-59 and 183). -/
def refPriceFor (symbol : String) : ℚ :=
  if upperStartsWith symbol "XAU" then 2000.0 else 1.10

/-- `resolved_client_id = payload.clientId or x_client_id or "demo-client-1"`
(`app/api.py` line 40); Python `or` also skips an empty string. -/
def resolvedClient (payloadClient headerClient : Option String) : String :=
  pyOrOptStr payloadClient (pyOrOptStr headerClient "demo-client-1")

/-- The `validate_order` view of a create payload. -/
def riskRequestOfPayload (p : OrderCreateRequest) : RiskRequest :=
  { qty := p.qty, type := p.type, price := p.price }

/-- The order row built by the two `repo.create` calls of `create_order`
(`app/api.py` lines 68-78 and 90-99); `cum_qty`/`avg_px` take the column
defaults `0.0`/`NULL`. -/
def mkOrderRow (newId cid : String) (p : OrderCreateRequest)
    (status : OrderStatus) (reject_reason : Option String) : Order :=
  { id := newId
    client_id := cid
    symbol := p.symbol
    side := p.side
    type := p.type
    qty := p.qty
    price := p.price
    time_in_force := p.timeInForce
    status := status
    cum_qty := 0
    avg_px := none
    reject_reason := reject_reason }

/-- `create_order` (`app/api.py` lines 31-105).  `headerClient` is the
`X-Client-Id` header, `lim` the risk-limit repository lookup result, `now`
the wall clock read inside `validate_order`, `newId` the generated order
id.  Returns the new store, the events published, and the commands
enqueued on the FIX gateway queue. -/
def create_order (pay : OrderCreateRequest) (headerClient : Option String)
    (lim : Option RiskLimit) (now : Tod) (newId : String) (st : Store) :
    Store × List Event × List Command :=
  let cid := resolvedClient pay.clientId headerClient
  let client_limit := limitOrDefault lim cid
  match validate_order (riskRequestOfPayload pay) client_limit
      (some (refPriceFor pay.symbol)) now with
  | (false, reason) =>
    let order := mkOrderRow newId cid pay OrderStatus.REJECTED reason
    (addOrder st order,
      [publish_reject order (pyOrOptStr reason "RISK_REJECT")], [])
  | (true, _) =>
    let order := mkOrderRow newId cid pay OrderStatus.NEW none
    (addOrder st order, [], [Command.send newId])

/-- The HTTP 4xx errors `amend_order` can raise. -/
inductive HttpError
  | notFound
  | notEditable
  | noFieldsToAmend
  | qtyBelowFilled
  | riskReject (reason : Option String)
deriving DecidableEq, Repr

/-- `new_qty = float(payload.qty) if payload.qty is not None else float(order.qty)`
(`app/api.py` line 168). -/
def amendNewQty (payload : OrderAmendRequest) (o : Order) : ℚ :=
  match payload.qty with
  | some q => q
  | none => o.qty

/-- `new_price` (`app/api.py` line 169). -/
def amendNewPrice (payload : OrderAmendRequest) (o : Order) : Option ℚ :=
  match payload.price with
  | some p => some p
  | none => o.price

/-- `payload.qty is not None and payload.qty < order.cum_qty`
(`app/api.py` line 164). -/
def qtyBelowFilledCheck (payload : OrderAmendRequest) (o : Order) : Bool :=
  match payload.qty with
  | some q => decide (q < o.cum_qty)
  | none => false

/-- The amended row: `price`/`qty` are overwritten only when the request
supplies them (`app/api.py` lines 202-205). -/
def amendedOrder (payload : OrderAmendRequest) (o : Order) : Order :=
  { o with price := amendNewPrice payload o, qty := amendNewQty payload o }

/-- `amend_order` (`app/api.py` lines 150-213).  Returns the raised error
(if any), the store — unchanged on every error path, since all checks
precede the mutation — and the events published. -/
def amend_order (payload : OrderAmendRequest) (lim : Option RiskLimit)
    (now : Tod) (order_id : String) (st : Store) :
    Option HttpError × Store × List Event :=
  match getOrder st order_id with
  | none => (some .notFound, st, [])
  | some order =>
    if ¬(order.status = OrderStatus.NEW ∨ order.status = OrderStatus.PARTIALLY_FILLED) then
      (some .notEditable, st, [])
    else if payload.qty = none ∧ payload.price = none then
      (some .noFieldsToAmend, st, [])
    else if qtyBelowFilledCheck payload order then
      (some .qtyBelowFilled, st, [])
    else
      match validate_order
          { qty := amendNewQty payload order
            type := order.type
            price := amendNewPrice payload order }
          (limitOrDefault lim order.client_id) (some (refPriceFor order.symbol)) now with
      | (false, reason) => (some (.riskReject reason), st, [])
      | (true, _) =>
        (none, saveOrder st (amendedOrder payload order),
          [publish_update (amendedOrder payload order)])

/-! ### Reconciliation (`app/services/reconciliation_service.py`) -/

/-- The tolerance `1e-9`. -/
def eps : ℚ := 1e-9

/-- The per-order execution sum: `exec_sums.get(o.id, 0.0)` where
`exec_sums` maps each order id to `SUM(exec_qty)` over its executions
(lines 22-26, 31). -/
def execSum (st : Store) (oid : String) : ℚ :=
  ((st.executions.filter (fun e => e.order_id = oid)).map (fun e => e.exec_qty)).sum

/-- The `inco_reasons` list computed for one order (lines 32-45), in the
order the source appends them. -/
def orderIncoReasons (st : Store) (o : Order) : List String :=
  let s := execSum st o.id
  let r1 := if pyAbs (pyOrQ o.cum_qty 0 - s) > eps then ["CUM_QTY_MISMATCH"] else []
  let qty := pyOrQ o.qty 0
  let cum := pyOrQ o.cum_qty 0
  let r2 :=
    if o.status = OrderStatus.FILLED ∧ pyAbs (cum - qty) > eps then
      ["STATUS_FILLED_BUT_CUM_QTY_NE_QTY"] else []
  let r3 :=
    if o.status = OrderStatus.PARTIALLY_FILLED ∧ (cum ≤ 0 ∨ cum ≥ qty) then
      ["STATUS_PARTIAL_INCONSISTENT"] else []
  let r4 :=
    if o.status ≠ OrderStatus.FILLED ∧ pyAbs (cum - qty) ≤ eps ∧ qty > 0 then
      ["STATUS_NOT_FILLED_BUT_CUM_EQ_QTY"] else []
  r1 ++ r2 ++ r3 ++ r4

/-- One entry of `orders_inconsistent` (lines 48-54). -/
structure OrderFlag where
  orderId : String
  status : OrderStatus
  qty : ℚ
  cumQty : ℚ
  reasons : List String
deriving DecidableEq, Repr

/-- The `orders_inconsistent` list (lines 29-54). -/
def ordersInconsistent (st : Store) : List OrderFlag :=
  st.orders.filterMap (fun o =>
    let rs := orderIncoReasons st o
    if rs.isEmpty then none
    else some
      { orderId := o.id
        status := o.status
        qty := pyOrQ o.qty 0
        cumQty := pyOrQ o.cum_qty 0
        reasons := rs })

/-- A row of the execution/order join used by the positions audit and by
`PositionsRepository.by_client` (lines 61-64): client, symbol and side of
the owning order together with the execution's quantity and price.
(The inner join drops an execution whose order id has no order row.) -/
structure ExecRow where
  client : String
  symbol : String
  side : Side
  exec_qty : ℚ
  exec_px : ℚ
deriving DecidableEq, Repr

/-- The join rows, one per execution. -/
def execDetailRows (st : Store) : List ExecRow :=
  st.executions.filterMap (fun e =>
    (getOrder st e.order_id).map (fun o =>
      { client := o.client_id
        symbol := o.symbol
        side := o.side
        exec_qty := e.exec_qty
        exec_px := e.exec_px }))

/-- `1.0 if r.side == "BUY" else -1.0` (line 69). -/
def sideSign (s : Side) : ℚ :=
  if s = Side.BUY then 1 else -1

/-- Add `v` into an association list under key `k`, as a Python dict
update: an existing key is updated in place, a new key is appended. -/
def aggAdd (m : List ((String × String) × ℚ)) (k : String × String) (v : ℚ) :
    List ((String × String) × ℚ) :=
  match m with
  | [] => [(k, v)]
  | (k0, v0) :: rest =>
    if k0 = k then (k0, v0 + v) :: rest else (k0, v0) :: aggAdd rest k v

/-- The `agg` defaultdict of signed execution quantities per
(client, symbol) (lines 66-70). -/
def buildAgg (st : Store) : List ((String × String) × ℚ) :=
  (execDetailRows st).foldl
    (fun m r => aggAdd m (r.client, r.symbol) (sideSign r.side * r.exec_qty)) []

/-- First-occurrence deduplication, the deterministic stand-in for the
source's Python `set` iteration (whose order is unspecified; no verified
property depends on output order). -/
def dedupFirst {α : Type} [DecidableEq α] (l : List α) : List α :=
  l.foldl (fun acc k => if k ∈ acc then acc else acc ++ [k]) []

/-- One row of `PositionsRepository.by_client`
(`app/repositories/positions.py`). -/
structure PositionRow where
  clientId : String
  symbol : String
  netQty : ℚ
  avgPx : ℚ
  unrealizedPnl : ℚ
deriving DecidableEq, Repr

/-- `PositionsRepository.by_client` (`app/repositories/positions.py`):
group the order/execution join rows of one client by (client, symbol);
`netQty` is the signed quantity sum and `avgPx` is
`sum(q*px) / nullif(sum(q), 0)` with NULL read back as 0. -/
def by_client (st : Store) (cid : String) : List PositionRow :=
  let rows := (execDetailRows st).filter (fun r => r.client = cid)
  let keys := dedupFirst (rows.map (fun r => (r.client, r.symbol)))
  keys.map (fun k =>
    let grp := rows.filter (fun r => r.client = k.1 ∧ r.symbol = k.2)
    let net := (grp.map (fun r => sideSign r.side * r.exec_qty)).sum
    let sumq := (grp.map (fun r => r.exec_qty)).sum
    let sumqpx := (grp.map (fun r => r.exec_qty * r.exec_px)).sum
    { clientId := k.1
      symbol := k.2
      netQty := pyOrQ net 0
      avgPx := pyOrQ (if sumq = 0 then 0 else sumqpx / sumq) 0
      unrealizedPnl := 0 })

/-- One entry of `positions_inconsistent` (lines 90-95). -/
structure PosFlag where
  clientId : String
  symbol : String
  calcNetQty : ℚ
  repoNetQty : ℚ
deriving DecidableEq, Repr

/-- `dict.get` on an association list. -/
def alGet (m : List ((String × String) × ℚ)) (k : String × String) : Option ℚ :=
  (m.find? (fun kv => kv.1 = k)).map (fun kv => kv.2)

/-- The `positions_inconsistent` list (lines 57-95): for each client
appearing in `agg`, compare the computed net quantities against the
positions repository over the union of both key sets and flag any pair
differing by more than `eps`. -/
def positionsInconsistent (st : Store) : List PosFlag :=
  let agg := buildAgg st
  let clients := dedupFirst (agg.map (fun kv => kv.1.1))
  clients.foldl (fun acc cid =>
    let calcMap := agg.filter (fun kv => kv.1.1 = cid)
    let repoMap : List ((String × String) × ℚ) :=
      (by_client st cid).map (fun p => ((p.clientId, p.symbol), p.netQty))
    let keys := dedupFirst ((calcMap.map (fun kv => kv.1)) ++ (repoMap.map (fun kv => kv.1)))
    acc ++ keys.filterMap (fun key =>
      let a := (alGet calcMap key).getD 0
      let b := (alGet repoMap key).getD 0
      if pyAbs (a - b) > eps then
        some { clientId := key.1, symbol := key.2, calcNetQty := a, repoNetQty := b }
      else none)) []

/-- The output of `reconcile_internal` (lines 97-102). -/
structure ReconcileReport where
  ok : Bool
  orders_inconsistent : List OrderFlag
  positions_inconsistent : List PosFlag
deriving DecidableEq, Repr

/-- `reconcile_internal` (`app/services/reconciliation_service.py`
lines 11-102). -/
def reconcile_internal (st : Store) : ReconcileReport :=
  let oi := ordersInconsistent st
  let pi := positionsInconsistent st
  { ok := oi.isEmpty && pi.isEmpty
    orders_inconsistent := oi
    positions_inconsistent := pi }

/-! ### Invariants and sample data -/

/-- The per-order invariant of spec §3 / §8: `0 ≤ cum_qty ≤ qty` and
`avg_px` is set iff `cum_qty > 0`. -/
def OrderInv (o : Order) : Prop :=
  0 ≤ o.cum_qty ∧ o.cum_qty ≤ o.qty ∧ (o.avg_px.isSome ↔ 0 < o.cum_qty)

instance (o : Order) : Decidable (OrderInv o) := by
  unfold OrderInv
  infer_instance

/-- Every order in the store satisfies `OrderInv`. -/
def StoreInv (st : Store) : Prop :=
  ∀ o ∈ st.orders, OrderInv o

instance (st : Store) : Decidable (StoreInv st) := by
  unfold StoreInv
  infer_instance

/-- The `validate_order` price-coherence conditions that follow the `qty`
check: a LIMIT order carries a price and a MARKET order does not. -/
def priceCoherent (req : RiskRequest) : Prop :=
  ¬(req.type = OrderType.LIMIT ∧ req.price = none)
    ∧ ¬(req.type = OrderType.MARKET ∧ req.price ≠ none)

instance (req : RiskRequest) : Decidable (priceCoherent req) := by
  unfold priceCoherent
  infer_instance

/-- The wall clock falls inside the parsed trading-hours window. -/
def inTradingWindow (l : RiskLimit) (now : Tod) : Prop :=
  (_parse_trading_hours l.trading_hours).1.ble now
    ∧ now.ble (_parse_trading_hours l.trading_hours).2

/-- Sample time of day used by witnesses. -/
def sampleNow : Tod := ⟨12, 0, 0, 0⟩

/-- Sample random draws used by witnesses. -/
def sampleDraws : SendDraws := ⟨false, false, 0⟩

/-- Sample fresh order used by witnesses. -/
def newOrder1 : Order :=
  { id := "ord-1"
    client_id := "c1"
    symbol := "XAUUSD"
    side := Side.BUY
    type := OrderType.LIMIT
    qty := 1
    price := some 2000
    time_in_force := TimeInForce.GTC
    status := OrderStatus.NEW
    cum_qty := 0
    avg_px := none
    reject_reason := none }

/-- Sample terminal order used by witnesses. -/
def termOrder : Order :=
  { newOrder1 with id := "ord-2", status := OrderStatus.REJECTED }

/-- Sample store holding one fresh and one terminal order. -/
def store1 : Store := ⟨[newOrder1, termOrder], []⟩

/-- Sample create payload used by witnesses. -/
def samplePayload : OrderCreateRequest :=
  { clientId := some "c1"
    symbol := "XAUUSD"
    side := Side.BUY
    type := OrderType.LIMIT
    qty := 1
    price := some 2000
    timeInForce := TimeInForce.GTC }

/-- Order with a cum_qty/execution-sum mismatch, for the reconciliation
witness. -/
def mismatchOrder : Order :=
  { newOrder1 with
    id := "ord-m"
    qty := 10
    cum_qty := 5
    avg_px := some 2000
    status := OrderStatus.PARTIALLY_FILLED }

/-- Store holding `mismatchOrder` and no executions. -/
def mismatchStore : Store := ⟨[mismatchOrder], []⟩

/-- Sample partially filled order used by the fill witness. -/
def fillOrder : Order :=
  { id := "ord-f"
    client_id := "c1"
    symbol := "XAUUSD"
    side := Side.BUY
    type := OrderType.LIMIT
    qty := 5
    price := some 2000
    time_in_force := TimeInForce.GTC
    status := OrderStatus.SENT
    cum_qty := 1
    avg_px := some 2000
    reject_reason := none }

/-- A freshly created order whose `qty` is exactly the reconciliation
tolerance `1e-9`: positive, yet flagged by the status-coherence check. -/
def tinyQtyOrder : Order :=
  { newOrder1 with id := "ord-tiny", qty := 1e-9 }

/-- Store holding only `tinyQtyOrder`. -/
def tinyQtyStore : Store := ⟨[tinyQtyOrder], []⟩

/-- The `orders_inconsistent` entry built for an order (the record of
`reconciliation_service.py` lines 48-54). -/
def flagOf (st : Store) (o : Order) : OrderFlag :=
  { orderId := o.id
    status := o.status
    qty := pyOrQ o.qty 0
    cumQty := pyOrQ o.cum_qty 0
    reasons := orderIncoReasons st o }

/-! ### Helper lemmas -/

theorem pyOrQ_zero (x : ℚ) : pyOrQ x 0 = x := by
  unfold pyOrQ
  split <;> simp_all

theorem pyOrOptQ_zero (x : Option ℚ) : pyOrOptQ x 0 = x.getD 0 := by
  unfold pyOrOptQ
  cases x with
  | none => rfl
  | some v =>
    simp only [Option.getD_some]
    split <;> simp_all

/-- Every status test against the pair (CANCELED, CANCEL_REQUESTED) raises:
the enumeration has no `CANCEL_REQUESTED` member. -/
theorem canceledOrCancelRequested_raises (s : OrderStatus) :
    canceledOrCancelRequested s = .error (.attributeError "CANCEL_REQUESTED") := rfl

/-- `_process_send` on an order id that is present in the store: the run
raises before the first commit, leaving the store as it was and publishing
nothing. -/
theorem _process_send_found (d : SendDraws) (st : Store) (oid : String) (o : Order)
    (h : getOrder st oid = some o) :
    _process_send d st oid = (some (.attributeError "CANCEL_REQUESTED"), st, []) := by
  unfold _process_send
  rw [h]
  rfl

/-- `_process_send` on an absent order id discards the command. -/
theorem _process_send_absent (d : SendDraws) (st : Store) (oid : String)
    (h : getOrder st oid = none) :
    _process_send d st oid = (none, st, []) := by
  unfold _process_send
  rw [h]

/-- C2: for every Send command whose order id exists in the store, the
worker's `_process_send` raises an `AttributeError` at its first status
check — the `OrderStatus` enumeration defines no member `CANCEL_REQUESTED`
— before any status write: the store is unchanged, nothing is published,
and no Send command ever advances an order beyond its current state. -/
theorem send_always_raises_attributeError (d : SendDraws) (st : Store)
    (oid : String) (o : Order) (h : getOrder st oid = some o) :
    orderStatusMember? "CANCEL_REQUESTED" = none ∧
    _process_send d st oid = (some (PyError.attributeError "CANCEL_REQUESTED"), st, []) :=
  ⟨rfl, _process_send_found d st oid o h⟩

/-- Witness for C2 at a concrete store. -/
theorem send_always_raises_attributeError_witness :
    orderStatusMember? "CANCEL_REQUESTED" = none ∧
    _process_send sampleDraws store1 "ord-1" =
      (some (PyError.attributeError "CANCEL_REQUESTED"), store1, []) :=
  send_always_raises_attributeError sampleDraws store1 "ord-1" newOrder1 (by rfl)

/-- C3: a Send command for an absent order id, or for an order already in a
terminal status (REJECTED, FILLED or CANCELED), is discarded: the store —
orders and executions alike — is unchanged and no event is published. -/
theorem send_discards_absent_or_terminal (d : SendDraws) (st : Store) (oid : String) :
    (getOrder st oid = none → _process_send d st oid = (none, st, [])) ∧
    (∀ o, getOrder st oid = some o →
      (o.status = OrderStatus.REJECTED ∨ o.status = OrderStatus.FILLED
        ∨ o.status = OrderStatus.CANCELED) →
      (_process_send d st oid).2.1 = st ∧ (_process_send d st oid).2.2 = []) := by
  constructor
  · intro h
    exact _process_send_absent d st oid h
  · intro o h _
    rw [_process_send_found d st oid o h]
    exact ⟨rfl, rfl⟩

/-- Witness for C3: an absent id and a REJECTED order in a concrete store. -/
theorem send_discards_absent_or_terminal_witness :
    _process_send sampleDraws store1 "missing" = (none, store1, []) ∧
    ((_process_send sampleDraws store1 "ord-2").2.1 = store1 ∧
      (_process_send sampleDraws store1 "ord-2").2.2 = []) :=
  ⟨(send_discards_absent_or_terminal sampleDraws store1 "missing").1 (by rfl),
   (send_discards_absent_or_terminal sampleDraws store1 "ord-2").2 termOrder (by rfl)
     (Or.inl rfl)⟩

/-- Case analysis of `_process_cancel`: absent ids are discarded, terminal
statuses are a no-op, everything else becomes CANCELED with one
ORDER_UPDATE and untouched executions. -/
theorem _process_cancel_spec (st : Store) (oid : String) :
    (getOrder st oid = none → _process_cancel st oid = (st, [])) ∧
    (∀ o, getOrder st oid = some o →
      (o.status = OrderStatus.FILLED ∨ o.status = OrderStatus.CANCELED
        ∨ o.status = OrderStatus.REJECTED) →
      _process_cancel st oid = (st, [])) ∧
    (∀ o, getOrder st oid = some o →
      ¬(o.status = OrderStatus.FILLED ∨ o.status = OrderStatus.CANCELED
        ∨ o.status = OrderStatus.REJECTED) →
      _process_cancel st oid =
        (saveOrder st { o with status := OrderStatus.CANCELED },
          [publish_update { o with status := OrderStatus.CANCELED }]) ∧
      (_process_cancel st oid).1.executions = st.executions ∧
      (publish_update { o with status := OrderStatus.CANCELED }).etype =
        EventType.ORDER_UPDATE) := by
  refine ⟨?_, ?_, ?_⟩
  · intro h
    unfold _process_cancel
    rw [h]
  · intro o h hterm
    unfold _process_cancel
    rw [h]
    simp only [if_pos hterm]
  · intro o h hterm
    have he : _process_cancel st oid =
        (saveOrder st { o with status := OrderStatus.CANCELED },
          [publish_update { o with status := OrderStatus.CANCELED }]) := by
      unfold _process_cancel
      rw [h]
      simp only [if_neg hterm]
    exact ⟨he, by rw [he]; rfl, rfl⟩

/-- C7: processing `Cancel(id)`: an absent order is discarded; a FILLED,
CANCELED or REJECTED order is a no-op (store and executions untouched,
nothing published); any other status becomes CANCELED with exactly one
ORDER_UPDATE published and the execution set unchanged. -/
theorem cancel_characterization (st : Store) (oid : String) :
    (getOrder st oid = none → _process_cancel st oid = (st, [])) ∧
    (∀ o, getOrder st oid = some o →
      (o.status = OrderStatus.FILLED ∨ o.status = OrderStatus.CANCELED
        ∨ o.status = OrderStatus.REJECTED) →
      _process_cancel st oid = (st, [])) ∧
    (∀ o, getOrder st oid = some o →
      ¬(o.status = OrderStatus.FILLED ∨ o.status = OrderStatus.CANCELED
        ∨ o.status = OrderStatus.REJECTED) →
      _process_cancel st oid =
        (saveOrder st { o with status := OrderStatus.CANCELED },
          [publish_update { o with status := OrderStatus.CANCELED }]) ∧
      (_process_cancel st oid).1.executions = st.executions ∧
      (publish_update { o with status := OrderStatus.CANCELED }).etype =
        EventType.ORDER_UPDATE) :=
  _process_cancel_spec st oid

/-- Witness for C7: a NEW order is canceled, a REJECTED order is a no-op. -/
theorem cancel_characterization_witness :
    _process_cancel store1 "ord-2" = (store1, []) ∧
    _process_cancel store1 "ord-1" =
      (saveOrder store1 { newOrder1 with status := OrderStatus.CANCELED },
        [publish_update { newOrder1 with status := OrderStatus.CANCELED }]) :=
  ⟨(cancel_characterization store1 "ord-2").2.1 termOrder (by rfl) (Or.inr (Or.inr rfl)),
   ((cancel_characterization store1 "ord-1").2.2 newOrder1 (by rfl) (by decide)).1⟩

theorem validate_invalid_qty (req : RiskRequest) (l : RiskLimit) (ref : Option ℚ)
    (now : Tod) (h : req.qty ≤ 0) :
    validate_order req l ref now = (false, some "INVALID_QTY") := by
  unfold validate_order
  rw [if_pos h]

theorem validate_price_required (req : RiskRequest) (l : RiskLimit) (ref : Option ℚ)
    (now : Tod) (hq : 0 < req.qty) (h : req.type = OrderType.LIMIT ∧ req.price = none) :
    validate_order req l ref now = (false, some "PRICE_REQUIRED") := by
  unfold validate_order
  rw [if_neg (not_le.mpr hq), if_pos h]

theorem validate_price_not_allowed (req : RiskRequest) (l : RiskLimit) (ref : Option ℚ)
    (now : Tod) (hq : 0 < req.qty)
    (h : req.type = OrderType.MARKET ∧ req.price ≠ none) :
    validate_order req l ref now = (false, some "PRICE_NOT_ALLOWED") := by
  have hnl : ¬(req.type = OrderType.LIMIT ∧ req.price = none) := by
    rintro ⟨hl, -⟩
    rw [h.1] at hl
    cases hl
  unfold validate_order
  rw [if_neg (not_le.mpr hq), if_neg hnl, if_pos h]

theorem validate_blocked (req : RiskRequest) (l : RiskLimit) (ref : Option ℚ)
    (now : Tod) (hq : 0 < req.qty) (hc : priceCoherent req) (hb : l.blocked = true) :
    validate_order req l ref now = (false, some "SYMBOL_BLOCKED") := by
  unfold validate_order
  rw [if_neg (not_le.mpr hq), if_neg hc.1, if_neg hc.2, if_pos hb]

theorem validate_outside (req : RiskRequest) (l : RiskLimit) (ref : Option ℚ)
    (now : Tod) (hq : 0 < req.qty) (hc : priceCoherent req) (hb : l.blocked = false)
    (hw : ¬inTradingWindow l now) :
    validate_order req l ref now = (false, some "OUTSIDE_TRADING_HOURS") := by
  unfold inTradingWindow at hw
  unfold validate_order
  rw [if_neg (not_le.mpr hq), if_neg hc.1, if_neg hc.2]
  rw [if_neg (by simp [hb])]
  simp only []
  rw [if_pos hw]

theorem validate_missing_ref (req : RiskRequest) (l : RiskLimit) (ref : Option ℚ)
    (now : Tod) (hq : 0 < req.qty) (hc : priceCoherent req) (hb : l.blocked = false)
    (hw : inTradingWindow l now) (he : effectivePrice req ref = none) :
    validate_order req l ref now = (false, some "MISSING_REFERENCE_PRICE") := by
  unfold inTradingWindow at hw
  unfold validate_order
  rw [if_neg (not_le.mpr hq), if_neg hc.1, if_neg hc.2]
  rw [if_neg (by simp [hb])]
  simp only []
  rw [if_neg (not_not_intro hw), he]

theorem validate_notional (req : RiskRequest) (l : RiskLimit) (ref : Option ℚ)
    (now : Tod) (p : ℚ) (hq : 0 < req.qty) (hc : priceCoherent req)
    (hb : l.blocked = false) (hw : inTradingWindow l now)
    (he : effectivePrice req ref = some p) (hn : req.qty * p > l.max_notional) :
    validate_order req l ref now = (false, some "NOTIONAL_LIMIT_EXCEEDED") := by
  unfold inTradingWindow at hw
  unfold validate_order
  rw [if_neg (not_le.mpr hq), if_neg hc.1, if_neg hc.2]
  rw [if_neg (by simp [hb])]
  simp only []
  rw [if_neg (not_not_intro hw), he]
  simp [hn]

theorem validate_size (req : RiskRequest) (l : RiskLimit) (ref : Option ℚ)
    (now : Tod) (p : ℚ) (hq : 0 < req.qty) (hc : priceCoherent req)
    (hb : l.blocked = false) (hw : inTradingWindow l now)
    (he : effectivePrice req ref = some p) (hn : req.qty * p ≤ l.max_notional)
    (hs : req.qty > l.max_order_size) :
    validate_order req l ref now = (false, some "ORDER_SIZE_LIMIT_EXCEEDED") := by
  unfold inTradingWindow at hw
  unfold validate_order
  rw [if_neg (not_le.mpr hq), if_neg hc.1, if_neg hc.2]
  rw [if_neg (by simp [hb])]
  simp only []
  rw [if_neg (not_not_intro hw), he]
  simp [not_lt.mpr hn, hs]

theorem validate_accepts (req : RiskRequest) (l : RiskLimit) (ref : Option ℚ)
    (now : Tod) (p : ℚ) (hq : 0 < req.qty) (hc : priceCoherent req)
    (hb : l.blocked = false) (hw : inTradingWindow l now)
    (he : effectivePrice req ref = some p) (hn : req.qty * p ≤ l.max_notional)
    (hs : req.qty ≤ l.max_order_size) :
    validate_order req l ref now = (true, none) := by
  unfold inTradingWindow at hw
  unfold validate_order
  rw [if_neg (not_le.mpr hq), if_neg hc.1, if_neg hc.2]
  rw [if_neg (by simp [hb])]
  simp only []
  rw [if_neg (not_not_intro hw), he]
  simp [not_lt.mpr hn, not_lt.mpr hs]

/-- C4: `validate_order` runs its checks in the spec's order and returns
the reason of the first failure: non-positive qty, LIMIT without price,
MARKET with price, blocked limit, wall clock outside the parsed window,
MARKET with no resolvable reference price, notional above `max_notional`,
qty above `max_order_size`; and accepts with a null reason otherwise. -/
theorem validate_order_check_order (req : RiskRequest) (l : RiskLimit)
    (ref : Option ℚ) (now : Tod) :
    (req.qty ≤ 0 → validate_order req l ref now = (false, some "INVALID_QTY")) ∧
    (0 < req.qty → req.type = OrderType.LIMIT → req.price = none →
      validate_order req l ref now = (false, some "PRICE_REQUIRED")) ∧
    (0 < req.qty → req.type = OrderType.MARKET → req.price ≠ none →
      validate_order req l ref now = (false, some "PRICE_NOT_ALLOWED")) ∧
    (0 < req.qty → priceCoherent req → l.blocked = true →
      validate_order req l ref now = (false, some "SYMBOL_BLOCKED")) ∧
    (0 < req.qty → priceCoherent req → l.blocked = false → ¬inTradingWindow l now →
      validate_order req l ref now = (false, some "OUTSIDE_TRADING_HOURS")) ∧
    (0 < req.qty → priceCoherent req → l.blocked = false → inTradingWindow l now →
      effectivePrice req ref = none →
      validate_order req l ref now = (false, some "MISSING_REFERENCE_PRICE")) ∧
    (∀ p : ℚ, 0 < req.qty → priceCoherent req → l.blocked = false →
      inTradingWindow l now → effectivePrice req ref = some p →
      req.qty * p > l.max_notional →
      validate_order req l ref now = (false, some "NOTIONAL_LIMIT_EXCEEDED")) ∧
    (∀ p : ℚ, 0 < req.qty → priceCoherent req → l.blocked = false →
      inTradingWindow l now → effectivePrice req ref = some p →
      req.qty * p ≤ l.max_notional → req.qty > l.max_order_size →
      validate_order req l ref now = (false, some "ORDER_SIZE_LIMIT_EXCEEDED")) ∧
    (∀ p : ℚ, 0 < req.qty → priceCoherent req → l.blocked = false →
      inTradingWindow l now → effectivePrice req ref = some p →
      req.qty * p ≤ l.max_notional → req.qty ≤ l.max_order_size →
      validate_order req l ref now = (true, none)) := by
  refine ⟨?_, ?_, ?_, ?_, ?_, ?_, ?_, ?_, ?_⟩
  · exact fun h => validate_invalid_qty req l ref now h
  · exact fun hq h1 h2 => validate_price_required req l ref now hq ⟨h1, h2⟩
  · exact fun hq h1 h2 => validate_price_not_allowed req l ref now hq ⟨h1, h2⟩
  · exact fun hq hc hb => validate_blocked req l ref now hq hc hb
  · exact fun hq hc hb hw => validate_outside req l ref now hq hc hb hw
  · exact fun hq hc hb hw he => validate_missing_ref req l ref now hq hc hb hw he
  · exact fun p hq hc hb hw he hn => validate_notional req l ref now p hq hc hb hw he hn
  · exact fun p hq hc hb hw he hn hs => validate_size req l ref now p hq hc hb hw he hn hs
  · exact fun p hq hc hb hw he hn hs => validate_accepts req l ref now p hq hc hb hw he hn hs

/-- Witness for C4: a request with `qty = 0` is rejected as INVALID_QTY. -/
theorem validate_order_check_order_witness :
    validate_order { qty := 0, type := OrderType.MARKET, price := none }
      (defaultRiskLimit "c1") (some 2000) sampleNow = (false, some "INVALID_QTY") :=
  (validate_order_check_order { qty := 0, type := OrderType.MARKET, price := none }
    (defaultRiskLimit "c1") (some 2000) sampleNow).1 (by norm_num)

/-- The fallback window `(23:59, 00:00)` substituted for a malformed
trading-hours string admits no time of day. -/
theorem fallback_window_empty (now : Tod) :
    ¬((Tod.ble ⟨23, 59, 0, 0⟩ now : Bool) ∧ (Tod.ble now ⟨0, 0, 0, 0⟩ : Bool)) := by
  rintro ⟨h1, h2⟩
  simp only [Tod.ble, Tod.key, decide_eq_true_eq] at h1 h2
  omega

/-- C5: for every trading-hours string that does not parse as
"HH:MM-HH:MM" and every wall-clock time, a request that passes the earlier
checks (positive qty, price coherent with type, not blocked) is rejected
as OUTSIDE_TRADING_HOURS: the substituted window (start 23:59, end 00:00)
admits no time of day, so a malformed string can never be accepted. -/
theorem malformed_hours_always_reject (req : RiskRequest) (l : RiskLimit)
    (ref : Option ℚ) (now : Tod) (hparse : parseHoursParts? l.trading_hours = none)
    (hq : 0 < req.qty) (hc : priceCoherent req) (hb : l.blocked = false) :
    validate_order req l ref now = (false, some "OUTSIDE_TRADING_HOURS") := by
  apply validate_outside req l ref now hq hc hb
  unfold inTradingWindow _parse_trading_hours
  rw [hparse]
  exact fallback_window_empty now

/-- Witness for C5 at a concrete malformed string. -/
theorem malformed_hours_always_reject_witness :
    validate_order { qty := 1, type := OrderType.LIMIT, price := some 2000 }
      { defaultRiskLimit "c1" with trading_hours := "whenever" } (some 2000) sampleNow
      = (false, some "OUTSIDE_TRADING_HOURS") :=
  malformed_hours_always_reject
    { qty := 1, type := OrderType.LIMIT, price := some 2000 }
    { defaultRiskLimit "c1" with trading_hours := "whenever" } (some 2000) sampleNow
    (by decide) (by norm_num) (by decide) (by decide)

/-- C6: every fill the worker applies — the first-fill block for a lot
`0 < lot ≤ qty − cum_qty`, and the second-fill block for the remainder —
appends exactly one Execution with that quantity and price, advances
`cum_qty` by the lot, sets `avg_px` to the volume-weighted average
`(avg_px_old·prev_cum + px·lot) / (prev_cum + lot)` with a null prior
average read as 0, and sets the status to FILLED when the new `cum_qty`
equals `qty` and to PARTIALLY_FILLED otherwise (the second block sets
FILLED outright, and its new `cum_qty` is exactly `qty`). -/
theorem fill_semantics (st : Store) (o : Order) (lot px : ℚ)
    (h0 : 0 ≤ o.cum_qty) (hlot : 0 < lot) (hle : lot ≤ o.qty - o.cum_qty) :
    ((fillStep st o lot px).1.executions
        = st.executions ++ [{ order_id := o.id, exec_qty := lot, exec_px := px }] ∧
      (fillStep st o lot px).2.cum_qty = o.cum_qty + lot ∧
      (fillStep st o lot px).2.avg_px
        = some ((o.avg_px.getD 0 * o.cum_qty + px * lot) / (o.cum_qty + lot)) ∧
      (fillStep st o lot px).2.status
        = (if (fillStep st o lot px).2.cum_qty = o.qty then OrderStatus.FILLED
           else OrderStatus.PARTIALLY_FILLED)) ∧
    (∀ (st2 : Store) (o2 : Order) (px2 : ℚ), 0 ≤ o2.cum_qty → o2.cum_qty < o2.qty →
      (finalFillStep st2 o2 px2).1.executions
        = st2.executions
            ++ [{ order_id := o2.id, exec_qty := o2.qty - o2.cum_qty, exec_px := px2 }] ∧
      (finalFillStep st2 o2 px2).2.cum_qty = o2.qty ∧
      (finalFillStep st2 o2 px2).2.avg_px
        = some ((o2.avg_px.getD 0 * o2.cum_qty + px2 * (o2.qty - o2.cum_qty))
            / (o2.cum_qty + (o2.qty - o2.cum_qty))) ∧
      (finalFillStep st2 o2 px2).2.status = OrderStatus.FILLED) := by
  constructor
  · have hdenom : o.cum_qty + lot ≠ 0 := by positivity
    refine ⟨?_, ?_, ?_, ?_⟩
    · simp [fillStep, saveOrder, addExecution]
    · simp [fillStep, pyOrQ_zero]
    · simp only [fillStep, pyOrQ_zero, pyOrOptQ_zero, if_neg hdenom]
    · have hcum : o.cum_qty + lot ≤ o.qty := by linarith
      simp only [fillStep, pyOrQ_zero]
      rcases lt_or_eq_of_le hcum with hlt | heq
      · rw [if_pos hlt, if_neg (ne_of_lt hlt)]
      · rw [if_neg (by rw [heq]; exact lt_irrefl _), if_pos heq]
  · intro st2 o2 px2 h02 hlt2
    have hdenom2 : o2.cum_qty + (o2.qty - o2.cum_qty) ≠ 0 := by
      have : 0 < o2.qty - o2.cum_qty := by linarith
      positivity
    refine ⟨?_, ?_, ?_, ?_⟩
    · simp [finalFillStep, saveOrder, addExecution]
    · simp [finalFillStep, pyOrQ_zero]
    · simp only [finalFillStep, pyOrQ_zero, pyOrOptQ_zero, if_neg hdenom2]
    · simp [finalFillStep]

/-- Witness for C6: a lot of 2 at price 100 on an order of qty 5 with 1
already filled at average 2000. -/
theorem fill_semantics_witness :
    (fillStep store1 fillOrder 2 100).2.cum_qty = 3 ∧
    (fillStep store1 fillOrder 2 100).2.avg_px = some (2200 / 3) ∧
    (finalFillStep store1 fillOrder 100).2.status = OrderStatus.FILLED := by
  have h := fill_semantics store1 fillOrder 2 100
    (by norm_num [fillOrder]) (by norm_num) (by norm_num [fillOrder])
  refine ⟨?_, ?_, (h.2 store1 fillOrder 100 (by norm_num [fillOrder])
    (by norm_num [fillOrder])).2.2.2⟩
  · rw [h.1.2.1]
    norm_num [fillOrder]
  · rw [h.1.2.2.1]
    norm_num [fillOrder]

/-- A failed validation always carries a non-empty reason string. -/
theorem validate_order_false_reason (req : RiskRequest) (l : RiskLimit)
    (ref : Option ℚ) (now : Tod) (rs : Option String)
    (h : validate_order req l ref now = (false, rs)) :
    ∃ r, rs = some r ∧ r ≠ "" := by
  unfold validate_order at h
  repeat' split at h
  all_goals simp_all
  all_goals (repeat' split at h)
  all_goals try simp_all
  all_goals exact ⟨_, h.symm, by decide⟩

theorem pyOrOptStr_some_ne (r d : String) (h : r ≠ "") :
    pyOrOptStr (some r) d = r := by
  simp only [pyOrOptStr]
  rw [if_neg h]

/-- C8: an order request that fails risk validation at creation time is
persisted with status REJECTED and reject reason equal to the validator's
(non-null) reason, one ORDER_REJECT event is published synchronously on
the client's topic, and nothing is enqueued to the engine's queue — in
particular the executions table is untouched. -/
theorem risk_reject_persists_never_enqueues (pay : OrderCreateRequest)
    (hc : Option String) (lim : Option RiskLimit) (now : Tod) (newId : String)
    (st : Store) (rsn : Option String)
    (hval : validate_order (riskRequestOfPayload pay)
        (limitOrDefault lim (resolvedClient pay.clientId hc))
        (some (refPriceFor pay.symbol)) now = (false, rsn)) :
    ∃ r, rsn = some r ∧
      create_order pay hc lim now newId st =
        (addOrder st
            (mkOrderRow newId (resolvedClient pay.clientId hc) pay OrderStatus.REJECTED rsn),
          [publish_reject
              (mkOrderRow newId (resolvedClient pay.clientId hc) pay OrderStatus.REJECTED rsn) r],
          []) ∧
      (mkOrderRow newId (resolvedClient pay.clientId hc) pay
          OrderStatus.REJECTED rsn).status = OrderStatus.REJECTED ∧
      (mkOrderRow newId (resolvedClient pay.clientId hc) pay
          OrderStatus.REJECTED rsn).reject_reason = some r ∧
      (addOrder st (mkOrderRow newId (resolvedClient pay.clientId hc) pay
          OrderStatus.REJECTED rsn)).executions = st.executions ∧
      (publish_reject (mkOrderRow newId (resolvedClient pay.clientId hc) pay
          OrderStatus.REJECTED rsn) r).etype = EventType.ORDER_REJECT ∧
      (publish_reject (mkOrderRow newId (resolvedClient pay.clientId hc) pay
          OrderStatus.REJECTED rsn) r).topic
        = "orders." ++ resolvedClient pay.clientId hc := by
  obtain ⟨r, hr, hne⟩ := validate_order_false_reason _ _ _ _ _ hval
  refine ⟨r, hr, ?_, rfl, ?_, rfl, rfl, rfl⟩
  · simp only [create_order]
    rw [hval, hr]
    simp [pyOrOptStr_some_ne r "RISK_REJECT" hne]
  · simp [mkOrderRow, hr]

/-- Risk limit with `blocked = true`, for the C8 witness. -/
def blockedLimit : RiskLimit :=
  { defaultRiskLimit "c1" with blocked := true }

/-- Witness for C8: a blocked client's request is persisted as REJECTED
with reason SYMBOL_BLOCKED, published as ORDER_REJECT, and not enqueued. -/
theorem risk_reject_persists_never_enqueues_witness :
    ∃ r, (some "SYMBOL_BLOCKED" : Option String) = some r ∧
      create_order samplePayload none (some blockedLimit) sampleNow "id-1" store1 =
        (addOrder store1
            (mkOrderRow "id-1" (resolvedClient samplePayload.clientId none) samplePayload
              OrderStatus.REJECTED (some "SYMBOL_BLOCKED")),
          [publish_reject
              (mkOrderRow "id-1" (resolvedClient samplePayload.clientId none) samplePayload
                OrderStatus.REJECTED (some "SYMBOL_BLOCKED")) r],
          []) ∧
      (mkOrderRow "id-1" (resolvedClient samplePayload.clientId none) samplePayload
          OrderStatus.REJECTED (some "SYMBOL_BLOCKED")).status = OrderStatus.REJECTED ∧
      (mkOrderRow "id-1" (resolvedClient samplePayload.clientId none) samplePayload
          OrderStatus.REJECTED (some "SYMBOL_BLOCKED")).reject_reason = some r ∧
      (addOrder store1 (mkOrderRow "id-1" (resolvedClient samplePayload.clientId none)
          samplePayload OrderStatus.REJECTED (some "SYMBOL_BLOCKED"))).executions
        = store1.executions ∧
      (publish_reject (mkOrderRow "id-1" (resolvedClient samplePayload.clientId none)
          samplePayload OrderStatus.REJECTED (some "SYMBOL_BLOCKED")) r).etype
        = EventType.ORDER_REJECT ∧
      (publish_reject (mkOrderRow "id-1" (resolvedClient samplePayload.clientId none)
          samplePayload OrderStatus.REJECTED (some "SYMBOL_BLOCKED")) r).topic
        = "orders." ++ resolvedClient samplePayload.clientId none :=
  risk_reject_persists_never_enqueues samplePayload none (some blockedLimit) sampleNow
    "id-1" store1 (some "SYMBOL_BLOCKED")
    (validate_blocked _ _ _ _ (by norm_num [samplePayload, riskRequestOfPayload])
      (by simp [priceCoherent, samplePayload, riskRequestOfPayload]) rfl)

/-- Full case analysis of `amend_order`: every error path leaves the store
untouched and publishes nothing, and a successful amend implies the order
was editable, any supplied qty was at least `cum_qty`, the re-validation
passed, and the only change is the saved amended row plus one
ORDER_UPDATE. -/
theorem amend_order_spec (payload : OrderAmendRequest) (lim : Option RiskLimit)
    (now : Tod) (oid : String) (st : Store) :
    (∀ e st2 evs, amend_order payload lim now oid st = (some e, st2, evs) →
      st2 = st ∧ evs = []) ∧
    (∀ st2 evs, amend_order payload lim now oid st = (none, st2, evs) →
      ∃ o, getOrder st oid = some o ∧
        (o.status = OrderStatus.NEW ∨ o.status = OrderStatus.PARTIALLY_FILLED) ∧
        (∀ q, payload.qty = some q → o.cum_qty ≤ q) ∧
        (validate_order
            { qty := amendNewQty payload o
              type := o.type
              price := amendNewPrice payload o }
            (limitOrDefault lim o.client_id) (some (refPriceFor o.symbol)) now).1 = true ∧
        st2 = saveOrder st (amendedOrder payload o) ∧
        evs = [publish_update (amendedOrder payload o)]) := by
  constructor
  · intro e st2 evs h
    unfold amend_order at h
    repeat' split at h
    all_goals
      try exact ⟨congrArg (fun t => t.2.1) h.symm, congrArg (fun t => t.2.2) h.symm⟩
    all_goals exact absurd (congrArg (fun t => t.1) h) (by simp)
  · intro st2 evs h
    unfold amend_order at h
    split at h
    next => exact absurd (congrArg (fun t => t.1) h) (by simp)
    next x o hsome =>
      refine ⟨o, hsome, ?_⟩
      split at h
      next => exact absurd (congrArg (fun t => t.1) h) (by simp)
      next hedit =>
        split at h
        next => exact absurd (congrArg (fun t => t.1) h) (by simp)
        next hfields =>
          split at h
          next => exact absurd (congrArg (fun t => t.1) h) (by simp)
          next hbelow =>
            split at h
            next heq => exact absurd (congrArg (fun t => t.1) h) (by simp)
            next snd heq =>
              refine ⟨not_not.mp hedit, ?_, by rw [heq], ?_, ?_⟩
              · intro q hq
                unfold qtyBelowFilledCheck at hbelow
                rw [hq] at hbelow
                simp at hbelow
                exact hbelow
              · exact (congrArg (fun t => t.2.1) h).symm
              · exact (congrArg (fun t => t.2.2) h).symm

/-- C9: amend succeeds only while the order is NEW or PARTIALLY_FILLED,
with any supplied qty at least the current `cum_qty`, and with the full
risk validation passing on the proposed values; a non-editable status, a
qty below `cum_qty`, or a failed re-validation each reject the amend with
the store untouched and nothing published; on success only qty and/or
price change — status, `cum_qty` and `avg_px` are untouched — and exactly
one ORDER_UPDATE is published. -/
theorem amend_characterization (payload : OrderAmendRequest)
    (lim : Option RiskLimit) (now : Tod) (oid : String) (st : Store) :
    (∀ o, getOrder st oid = some o →
      ¬(o.status = OrderStatus.NEW ∨ o.status = OrderStatus.PARTIALLY_FILLED) →
      amend_order payload lim now oid st = (some .notEditable, st, [])) ∧
    (∀ o q, getOrder st oid = some o →
      (o.status = OrderStatus.NEW ∨ o.status = OrderStatus.PARTIALLY_FILLED) →
      payload.qty = some q → q < o.cum_qty →
      amend_order payload lim now oid st = (some .qtyBelowFilled, st, [])) ∧
    (∀ o rsn, getOrder st oid = some o →
      (o.status = OrderStatus.NEW ∨ o.status = OrderStatus.PARTIALLY_FILLED) →
      ¬(payload.qty = none ∧ payload.price = none) →
      qtyBelowFilledCheck payload o = false →
      validate_order
          { qty := amendNewQty payload o
            type := o.type
            price := amendNewPrice payload o }
          (limitOrDefault lim o.client_id) (some (refPriceFor o.symbol)) now
        = (false, rsn) →
      amend_order payload lim now oid st = (some (.riskReject rsn), st, [])) ∧
    (∀ e st2 evs, amend_order payload lim now oid st = (some e, st2, evs) →
      st2 = st ∧ evs = []) ∧
    (∀ st2 evs, amend_order payload lim now oid st = (none, st2, evs) →
      ∃ o, getOrder st oid = some o ∧
        (o.status = OrderStatus.NEW ∨ o.status = OrderStatus.PARTIALLY_FILLED) ∧
        (∀ q, payload.qty = some q → o.cum_qty ≤ q) ∧
        (validate_order
            { qty := amendNewQty payload o
              type := o.type
              price := amendNewPrice payload o }
            (limitOrDefault lim o.client_id) (some (refPriceFor o.symbol)) now).1 = true ∧
        st2 = saveOrder st (amendedOrder payload o) ∧
        evs = [publish_update (amendedOrder payload o)]) ∧
    (∀ o : Order, (amendedOrder payload o).status = o.status ∧
      (amendedOrder payload o).cum_qty = o.cum_qty ∧
      (amendedOrder payload o).avg_px = o.avg_px ∧
      (amendedOrder payload o).qty = amendNewQty payload o ∧
      (amendedOrder payload o).price = amendNewPrice payload o ∧
      (amendedOrder payload o).id = o.id ∧
      (publish_update (amendedOrder payload o)).etype = EventType.ORDER_UPDATE ∧
      (saveOrder st (amendedOrder payload o)).executions = st.executions) := by
  refine ⟨?_, ?_, ?_, (amend_order_spec payload lim now oid st).1,
    (amend_order_spec payload lim now oid st).2,
    fun o => ⟨rfl, rfl, rfl, rfl, rfl, rfl, rfl, rfl⟩⟩
  · intro o hget hnot
    unfold amend_order
    simp only [hget]
    rw [if_pos hnot]
  · intro o q hget hedit hq hlt
    unfold amend_order
    simp only [hget]
    rw [if_neg (not_not_intro hedit), if_neg (by simp [hq]),
      if_pos (by unfold qtyBelowFilledCheck; rw [hq]; simpa using hlt)]
  · intro o rsn hget hedit hfields hbelow hval
    unfold amend_order
    simp only [hget]
    rw [if_neg (not_not_intro hedit), if_neg hfields,
      if_neg (by rw [hbelow]; exact Bool.false_ne_true), hval]

/-- Witness for C9: amending a REJECTED order fails with the editability
error and changes nothing. -/
theorem amend_characterization_witness :
    amend_order { price := none, qty := some 2 } none sampleNow "ord-2" store1
      = (some HttpError.notEditable, store1, []) :=
  (amend_characterization { price := none, qty := some 2 } none sampleNow "ord-2" store1).1
    termOrder (by rfl) (by decide)

theorem getOrder_mem (st : Store) (oid : String) (o : Order)
    (h : getOrder st oid = some o) : o ∈ st.orders :=
  List.mem_of_find?_eq_some h

theorem StoreInv_addOrder (st : Store) (o : Order) (hst : StoreInv st)
    (ho : OrderInv o) : StoreInv (addOrder st o) := by
  intro x hx
  rcases List.mem_append.mp hx with hx | hx
  · exact hst x hx
  · rw [List.mem_singleton.mp hx]
    exact ho

theorem StoreInv_saveOrder (st : Store) (o : Order) (hst : StoreInv st)
    (ho : OrderInv o) : StoreInv (saveOrder st o) := by
  intro x hx
  obtain ⟨y, hy, hxy⟩ := List.mem_map.mp hx
  by_cases hid : y.id = o.id
  · rw [if_pos hid] at hxy
    rw [← hxy]
    exact ho
  · rw [if_neg hid] at hxy
    rw [← hxy]
    exact hst y hy

theorem OrderInv_mkOrderRow (newId cid : String) (p : OrderCreateRequest)
    (status : OrderStatus) (rsn : Option String) (hq : 0 < p.qty) :
    OrderInv (mkOrderRow newId cid p status rsn) := by
  refine ⟨le_refl 0, le_of_lt hq, ?_⟩
  simp [mkOrderRow]

/-- C1: after every operation of every write path — order creation (both
the accepted and the risk-rejected branch), the worker's Send and Cancel
processing, amend, and each of the two fill blocks — every order satisfies
`0 ≤ cum_qty ≤ qty` with `avg_px` set iff `cum_qty > 0`; moreover each
fill lot is positive and no larger than `qty − cum_qty`, and an amend
whose new qty is below `cum_qty` is rejected with no state change. -/
theorem order_invariant_all_write_paths :
    (∀ (pay : OrderCreateRequest) (hc : Option String) (lim : Option RiskLimit)
        (now : Tod) (newId : String) (st : Store), pay.pydanticValid → StoreInv st →
      StoreInv (create_order pay hc lim now newId st).1) ∧
    (∀ (d : SendDraws) (st : Store) (oid : String), StoreInv st →
      StoreInv (_process_send d st oid).2.1) ∧
    (∀ (st : Store) (oid : String), StoreInv st → StoreInv (_process_cancel st oid).1) ∧
    (∀ (payload : OrderAmendRequest) (lim : Option RiskLimit) (now : Tod)
        (oid : String) (st : Store), StoreInv st →
      StoreInv (amend_order payload lim now oid st).2.1) ∧
    (∀ (st : Store) (o : Order) (lot px : ℚ), OrderInv o → 0 < lot →
      lot ≤ o.qty - o.cum_qty → OrderInv (fillStep st o lot px).2) ∧
    (∀ (st : Store) (o : Order) (px : ℚ), OrderInv o → o.cum_qty < o.qty →
      OrderInv (finalFillStep st o px).2) ∧
    (∀ (remaining : ℚ) (b : Bool), 0 < remaining →
      0 < firstLot remaining b ∧ firstLot remaining b ≤ remaining) ∧
    (∀ (payload : OrderAmendRequest) (lim : Option RiskLimit) (now : Tod)
        (oid : String) (st : Store) (o : Order) (q : ℚ),
      getOrder st oid = some o → payload.qty = some q → q < o.cum_qty →
      (amend_order payload lim now oid st).1.isSome = true ∧
      (amend_order payload lim now oid st).2.1 = st) := by
  refine ⟨?_, ?_, ?_, ?_, ?_, ?_, ?_, ?_⟩
  · intro pay hc lim now newId st hvalid hst
    simp only [create_order]
    split
    · exact StoreInv_addOrder st _ hst (OrderInv_mkOrderRow _ _ _ _ _ hvalid.1)
    · exact StoreInv_addOrder st _ hst (OrderInv_mkOrderRow _ _ _ _ _ hvalid.1)
  · intro d st oid hst
    cases hget : getOrder st oid with
    | none => rw [_process_send_absent d st oid hget]; exact hst
    | some o => rw [_process_send_found d st oid o hget]; exact hst
  · intro st oid hst
    cases hget : getOrder st oid with
    | none => rw [(_process_cancel_spec st oid).1 hget]; exact hst
    | some o =>
      by_cases hterm : o.status = OrderStatus.FILLED ∨ o.status = OrderStatus.CANCELED
          ∨ o.status = OrderStatus.REJECTED
      · rw [(_process_cancel_spec st oid).2.1 o hget hterm]
        exact hst
      · rw [((_process_cancel_spec st oid).2.2 o hget hterm).1]
        exact StoreInv_saveOrder st _ hst (hst o (getOrder_mem st oid o hget))
  · intro payload lim now oid st hst
    rcases hae : amend_order payload lim now oid st with ⟨err, st2, evs⟩
    cases err with
    | some e =>
      have := ((amend_order_spec payload lim now oid st).1 e st2 evs hae).1
      simpa [this] using hst
    | none =>
      obtain ⟨o, hget, _, hqge, _, hst2, _⟩ :=
        (amend_order_spec payload lim now oid st).2 st2 evs hae
      have hinv := hst o (getOrder_mem st oid o hget)
      have hamended : OrderInv (amendedOrder payload o) := by
        refine ⟨hinv.1, ?_, hinv.2.2⟩
        show o.cum_qty ≤ amendNewQty payload o
        unfold amendNewQty
        cases hpq : payload.qty with
        | none => exact hinv.2.1
        | some q => exact hqge q hpq
      simp only [hst2]
      exact StoreInv_saveOrder st _ hst hamended
  · intro st o lot px hinv hlot hle
    refine ⟨?_, ?_, ?_⟩
    · show (0 : ℚ) ≤ pyOrQ o.cum_qty 0 + lot
      rw [pyOrQ_zero]
      linarith [hinv.1]
    · show pyOrQ o.cum_qty 0 + lot ≤ o.qty
      rw [pyOrQ_zero]
      linarith
    · show (Option.isSome (some _) = true) ↔ 0 < pyOrQ o.cum_qty 0 + lot
      rw [pyOrQ_zero]
      simp only [Option.isSome_some, true_iff]
      linarith [hinv.1]
  · intro st o px hinv hlt
    refine ⟨?_, ?_, ?_⟩
    · show (0 : ℚ) ≤ pyOrQ o.cum_qty 0 + (o.qty - o.cum_qty)
      rw [pyOrQ_zero]
      linarith [hinv.1]
    · show pyOrQ o.cum_qty 0 + (o.qty - o.cum_qty) ≤ o.qty
      rw [pyOrQ_zero]
      linarith
    · show (Option.isSome (some _) = true) ↔ 0 < pyOrQ o.cum_qty 0 + (o.qty - o.cum_qty)
      rw [pyOrQ_zero]
      simp only [Option.isSome_some, true_iff]
      linarith [hinv.1]
  · intro remaining b hr
    cases b
    · unfold firstLot
      norm_num
      exact hr
    · unfold firstLot
      norm_num
      constructor <;> nlinarith
  · intro payload lim now oid st o q hget hq hlt
    rcases hae : amend_order payload lim now oid st with ⟨err, st2, evs⟩
    cases err with
    | some e =>
      have h1 := ((amend_order_spec payload lim now oid st).1 e st2 evs hae).1
      exact ⟨rfl, h1⟩
    | none =>
      obtain ⟨o', hget', _, hqge, _⟩ :=
        (amend_order_spec payload lim now oid st).2 st2 evs hae
      rw [hget] at hget'
      obtain rfl : o = o' := Option.some.inj hget'
      exact absurd (hqge q hq) (not_le.mpr hlt)

/-- Witness for C1: the invariant-preservation conjuncts instantiated on a
concrete store, payload, amend request and fill. -/
theorem order_invariant_all_write_paths_witness :
    StoreInv (create_order samplePayload none none sampleNow "id-2" store1).1 ∧
    StoreInv (_process_send sampleDraws store1 "ord-1").2.1 ∧
    StoreInv (_process_cancel store1 "ord-1").1 ∧
    StoreInv (amend_order { price := none, qty := some 2 } none sampleNow "ord-1" store1).2.1 ∧
    OrderInv (fillStep store1 fillOrder 2 100).2 ∧
    (0 < firstLot 4 true ∧ firstLot 4 true ≤ 4) := by
  have hstore : StoreInv store1 := by
    intro o ho
    simp only [store1, List.mem_cons, List.not_mem_nil, or_false] at ho
    rcases ho with rfl | rfl
    · exact ⟨le_refl 0, by norm_num [newOrder1], by simp [newOrder1]⟩
    · exact ⟨le_refl 0, by norm_num [termOrder, newOrder1], by simp [termOrder, newOrder1]⟩
  have hvalid : samplePayload.pydanticValid :=
    ⟨by norm_num [samplePayload], by simp [samplePayload], by simp [samplePayload]⟩
  have hfill : OrderInv fillOrder :=
    ⟨by norm_num [fillOrder], by norm_num [fillOrder], by simp [fillOrder]⟩
  exact ⟨order_invariant_all_write_paths.1 samplePayload none none sampleNow "id-2" store1
      hvalid hstore,
    order_invariant_all_write_paths.2.1 sampleDraws store1 "ord-1" hstore,
    order_invariant_all_write_paths.2.2.1 store1 "ord-1" hstore,
    order_invariant_all_write_paths.2.2.2.1 { price := none, qty := some 2 } none sampleNow
      "ord-1" store1 hstore,
    order_invariant_all_write_paths.2.2.2.2.1 store1 fillOrder 2 100 hfill (by norm_num)
      (by norm_num [fillOrder]),
    order_invariant_all_write_paths.2.2.2.2.2.2.1 4 true (by norm_num)⟩

theorem mem_ite_singleton {α : Type} {x a : α} {c : Prop} [Decidable c]
    (h : x ∈ (if c then [a] else [])) : x = a := by
  split at h
  · simpa using h
  · simp at h

theorem eps_pos : (0 : ℚ) < eps := by
  norm_num [eps]

/-- Membership in `orders_inconsistent`: exactly the orders with a
nonempty reason list, paired with those reasons. -/
theorem ordersInconsistent_mem (st : Store) (f : OrderFlag) :
    f ∈ (reconcile_internal st).orders_inconsistent ↔
      ∃ o ∈ st.orders, orderIncoReasons st o ≠ [] ∧ f = flagOf st o := by
  show f ∈ ordersInconsistent st ↔ _
  unfold ordersInconsistent
  rw [List.mem_filterMap]
  constructor
  · rintro ⟨o, ho, hg⟩
    dsimp only at hg
    by_cases hrs : (orderIncoReasons st o).isEmpty
    · rw [if_pos hrs] at hg
      cases hg
    · rw [if_neg hrs] at hg
      refine ⟨o, ho, ?_, (Option.some.inj hg).symm⟩
      intro hnil
      exact hrs (by rw [hnil]; rfl)
  · rintro ⟨o, ho, hne, rfl⟩
    refine ⟨o, ho, ?_⟩
    dsimp only
    rw [if_neg (fun hrs => hne (List.isEmpty_iff.mp hrs))]
    rfl

/-- The `CUM_QTY_MISMATCH` reason appears exactly when the execution sum
disagrees with `cum_qty` beyond the tolerance. -/
theorem cum_mismatch_reason_iff (st : Store) (o : Order) :
    "CUM_QTY_MISMATCH" ∈ orderIncoReasons st o ↔
      eps < pyAbs (o.cum_qty - execSum st o.id) := by
  by_cases hc : eps < pyAbs (o.cum_qty - execSum st o.id)
  · refine ⟨fun _ => hc, fun _ => ?_⟩
    unfold orderIncoReasons
    simp only [pyOrQ_zero]
    rw [if_pos hc]
    simp
  · refine ⟨fun hmem => ?_, fun h => absurd h hc⟩
    exfalso
    unfold orderIncoReasons at hmem
    simp only [pyOrQ_zero] at hmem
    rw [if_neg hc] at hmem
    simp only [List.nil_append, List.mem_append] at hmem
    rcases hmem with (h | h) | h <;>
      exact absurd (mem_ite_singleton h) (by decide)

/-- The reason list of an order with no executions, `cum_qty = 0`,
`qty > eps` and a NEW or REJECTED status is empty. -/
theorem fresh_order_no_reasons (st : Store) (o : Order)
    (hexec : st.executions.filter (fun e => e.order_id = o.id) = [])
    (hcum : o.cum_qty = 0) (hqty : eps < o.qty)
    (hstat : o.status = OrderStatus.NEW ∨ o.status = OrderStatus.REJECTED) :
    orderIncoReasons st o = [] := by
  have hsum : execSum st o.id = 0 := by
    unfold execSum
    rw [hexec]
    rfl
  have hq0 : (0 : ℚ) < o.qty := lt_trans eps_pos hqty
  have habs : pyAbs (0 - o.qty) = o.qty := by
    unfold pyAbs
    rw [zero_sub, if_pos (neg_neg_of_pos hq0), neg_neg]
  have hnf : o.status ≠ OrderStatus.FILLED := by
    rcases hstat with h | h <;> rw [h] <;> intro hh <;> cases hh
  have hnp : o.status ≠ OrderStatus.PARTIALLY_FILLED := by
    rcases hstat with h | h <;> rw [h] <;> intro hh <;> cases hh
  have hc1 : ¬(pyAbs ((0 : ℚ) - 0) > eps) := by
    unfold pyAbs
    norm_num [eps]
  have hc2 : ¬(o.status = OrderStatus.FILLED ∧ pyAbs ((0 : ℚ) - o.qty) > eps) :=
    fun h => hnf h.1
  have hc3 : ¬(o.status = OrderStatus.PARTIALLY_FILLED
      ∧ ((0 : ℚ) ≤ 0 ∨ (0 : ℚ) ≥ o.qty)) :=
    fun h => hnp h.1
  have hc4 : ¬(o.status ≠ OrderStatus.FILLED ∧ pyAbs ((0 : ℚ) - o.qty) ≤ eps
      ∧ o.qty > 0) :=
    fun h => absurd (habs ▸ h.2.1) (not_le.mpr hqty)
  simp only [orderIncoReasons, pyOrQ_zero]
  rw [hsum, hcum]
  rw [if_neg hc1, if_neg hc2, if_neg hc3, if_neg hc4]
  rfl

/-- C10 (amended): `ok` is true iff both inconsistency lists are empty; an
order is flagged `CUM_QTY_MISMATCH` exactly when `|cum_qty − Σ exec_qty|`
exceeds 1e-9; and a freshly created order with zero executions, `cum_qty`
0, `qty` above the 1e-9 tolerance and status NEW or REJECTED is never
flagged.  (The unamended claim, with `qty > 0` instead of `qty > 1e-9`, is
refuted by `reconcile_fresh_tiny_qty_flagged`.) -/
theorem reconcile_characterization (st : Store)
    (hnd : (st.orders.map (fun o => o.id)).Nodup) :
    ((reconcile_internal st).ok = true ↔
      (reconcile_internal st).orders_inconsistent = [] ∧
      (reconcile_internal st).positions_inconsistent = []) ∧
    (∀ o : Order, "CUM_QTY_MISMATCH" ∈ orderIncoReasons st o ↔
      eps < pyAbs (o.cum_qty - execSum st o.id)) ∧
    (∀ o ∈ st.orders,
      ((∃ f ∈ (reconcile_internal st).orders_inconsistent,
          f.orderId = o.id ∧ "CUM_QTY_MISMATCH" ∈ f.reasons) ↔
        eps < pyAbs (o.cum_qty - execSum st o.id))) ∧
    (∀ o ∈ st.orders, st.executions.filter (fun e => e.order_id = o.id) = [] →
      o.cum_qty = 0 → eps < o.qty →
      (o.status = OrderStatus.NEW ∨ o.status = OrderStatus.REJECTED) →
      orderIncoReasons st o = [] ∧
      ¬∃ f ∈ (reconcile_internal st).orders_inconsistent, f.orderId = o.id) := by
  have hinj := List.inj_on_of_nodup_map hnd
  refine ⟨?_, cum_mismatch_reason_iff st, ?_, ?_⟩
  · show (_ && _) = true ↔ _
    rw [Bool.and_eq_true, List.isEmpty_iff, List.isEmpty_iff]
    exact Iff.rfl
  · intro o ho
    rw [← cum_mismatch_reason_iff st o]
    constructor
    · rintro ⟨f, hf, hfid, hfm⟩
      obtain ⟨o', ho', _, rfl⟩ := (ordersInconsistent_mem st f).mp hf
      obtain rfl : o' = o := hinj ho' ho hfid
      exact hfm
    · intro hm
      exact ⟨flagOf st o,
        (ordersInconsistent_mem st _).mpr ⟨o, ho, List.ne_nil_of_mem hm, rfl⟩,
        rfl, hm⟩
  · intro o ho hexec hcum hqty hstat
    have hreasons := fresh_order_no_reasons st o hexec hcum hqty hstat
    refine ⟨hreasons, ?_⟩
    rintro ⟨f, hf, hfid⟩
    obtain ⟨o', ho', hne, rfl⟩ := (ordersInconsistent_mem st f).mp hf
    obtain rfl : o' = o := hinj ho' ho hfid
    exact hne hreasons

/-- Witness for C10 (amended): on a store whose single order has
`cum_qty = 5` and no executions, the mismatch characterization holds. -/
theorem reconcile_characterization_witness :
    ("CUM_QTY_MISMATCH" ∈ orderIncoReasons mismatchStore mismatchOrder ↔
      eps < pyAbs (mismatchOrder.cum_qty - execSum mismatchStore mismatchOrder.id)) ∧
    ((reconcile_internal mismatchStore).ok = true ↔
      (reconcile_internal mismatchStore).orders_inconsistent = [] ∧
      (reconcile_internal mismatchStore).positions_inconsistent = []) :=
  ⟨(reconcile_characterization mismatchStore (by simp [mismatchStore])).2.1 mismatchOrder,
   (reconcile_characterization mismatchStore (by simp [mismatchStore])).1⟩

/-- Counterexample to C10 as stated: a freshly created order with zero
executions, `cum_qty = 0`, `qty = 1e-9 > 0` and status NEW is flagged
(reason `STATUS_NOT_FILLED_BUT_CUM_EQ_QTY`), because `|0 − 1e-9| ≤ 1e-9`
and `qty > 0` satisfy the third status-coherence check. -/
theorem reconcile_fresh_tiny_qty_flagged :
    tinyQtyStore.executions = [] ∧
    tinyQtyOrder.cum_qty = 0 ∧
    0 < tinyQtyOrder.qty ∧
    tinyQtyOrder.status = OrderStatus.NEW ∧
    tinyQtyOrder ∈ tinyQtyStore.orders ∧
    ∃ f ∈ (reconcile_internal tinyQtyStore).orders_inconsistent,
      f.orderId = tinyQtyOrder.id := by
  have hsum : execSum tinyQtyStore tinyQtyOrder.id = 0 := rfl
  have hcum : tinyQtyOrder.cum_qty = 0 := rfl
  have hqty : tinyQtyOrder.qty = 1e-9 := rfl
  have hc1 : ¬(pyAbs ((0 : ℚ) - 0) > eps) := by
    unfold pyAbs
    norm_num [eps]
  have hstat : tinyQtyOrder.status = OrderStatus.NEW := rfl
  have hc2 : ¬(tinyQtyOrder.status = OrderStatus.FILLED
      ∧ pyAbs ((0 : ℚ) - tinyQtyOrder.qty) > eps) := by
    rintro ⟨h1, -⟩
    rw [hstat] at h1
    cases h1
  have hc3 : ¬(tinyQtyOrder.status = OrderStatus.PARTIALLY_FILLED
      ∧ ((0 : ℚ) ≤ 0 ∨ (0 : ℚ) ≥ tinyQtyOrder.qty)) := by
    rintro ⟨h1, -⟩
    rw [hstat] at h1
    cases h1
  have h41 : tinyQtyOrder.status ≠ OrderStatus.FILLED := by
    rw [hstat]
    intro hh
    cases hh
  have h42 : pyAbs ((0 : ℚ) - tinyQtyOrder.qty) ≤ eps := by
    rw [hqty]
    unfold pyAbs
    norm_num [eps]
  have h43 : tinyQtyOrder.qty > 0 := by
    rw [hqty]
    norm_num
  have hc4 : tinyQtyOrder.status ≠ OrderStatus.FILLED
      ∧ pyAbs ((0 : ℚ) - tinyQtyOrder.qty) ≤ eps ∧ tinyQtyOrder.qty > 0 :=
    ⟨h41, h42, h43⟩
  have hreasons : orderIncoReasons tinyQtyStore tinyQtyOrder
      = ["STATUS_NOT_FILLED_BUT_CUM_EQ_QTY"] := by
    simp only [orderIncoReasons, pyOrQ_zero]
    rw [hsum, hcum]
    rw [if_neg hc1, if_neg hc2, if_neg hc3, if_pos hc4]
    rfl
  refine ⟨rfl, rfl, by rw [hqty]; norm_num, rfl, by simp [tinyQtyStore], ?_⟩
  exact ⟨flagOf tinyQtyStore tinyQtyOrder,
    (ordersInconsistent_mem tinyQtyStore _).mpr
      ⟨tinyQtyOrder, by simp [tinyQtyStore], by rw [hreasons]; simp, rfl⟩, rfl⟩

end BackendCasa
